import Mathlib

/-!
Formal model of `src/toxicity_analysis_api.py`.

The program is a Flask endpoint `PredictToxicity.get` backed by twelve
module-level globals: six TF-IDF vectorizers (`tox`, `sev`, `obs`, `ins`,
`thr`, `ide`) and six classifiers (`tox_model`, ..., `ide_model`), each
loaded by `load_pickle_file`, which returns `None` on any load failure.

We embed the handler shallowly:
- a vectorizer global is `Option (String → Except String φ)`: `none` models a
  global that is `None` because `load_pickle_file` failed, and a loaded
  vectorizer's `transform` may raise (modelled by `Except.error`);
- a classifier global is `Option (φ → Except String (List (ℚ × ℚ)))`:
  `predict_proba` returns a matrix with one row per input document and the
  two class-probability columns; the Python `[:, 1]` slice is the list of
  second components;
- calling a method on a `None` global raises `AttributeError`, which the
  handler's bare `except` catches, exactly like any other exception;
- `request.args.get('text', '')` is `Option String` with default `""`, and
  Python's `str.strip()` is `pyStrip`;
- the handler body is `get`, which also returns the trace of model
  invocations (`transform` / `predict_proba` calls) actually performed, so
  that short-circuit claims can be stated;
- Python's `round(x, 2)` (round-half-to-even at two decimals) is `round2`.
-/

namespace ToxicityAnalysis

/-- The six toxicity dimensions of the API, in the order of the response keys. -/
inductive Dim where
  | toxic
  | severeToxic
  | obscene
  | insult
  | threat
  | identityHate
deriving DecidableEq

/-- One model invocation performed by the handler: a vectorizer `transform`
call or a classifier `predict_proba` call for a given dimension. -/
inductive Call where
  | transform (d : Dim)
  | predictProba (d : Dim)
deriving DecidableEq

/-- A vectorizer global: `none` when `load_pickle_file` returned `None`;
otherwise its `transform`, which may raise. -/
def Vect (φ : Type) : Type := Option (String → Except String φ)

/-- A classifier global: `none` when `load_pickle_file` returned `None`;
otherwise its `predict_proba`, returning rows of (negative, positive) class
probabilities, and possibly raising. -/
def Clf (φ : Type) : Type := Option (φ → Except String (List (ℚ × ℚ)))

/-- The twelve module-level globals of `toxicity_analysis_api.py`, named as in
the source. `φ` is the (opaque) type of feature vectors. -/
structure Env (φ : Type) where
  tox : Vect φ
  sev : Vect φ
  obs : Vect φ
  ins : Vect φ
  thr : Vect φ
  ide : Vect φ
  tox_model : Clf φ
  sev_model : Clf φ
  obs_model : Clf φ
  ins_model : Clf φ
  thr_model : Clf φ
  ide_model : Clf φ

/-- The vectorizer global used for a dimension. -/
def vectOf (env : Env φ) : Dim → Vect φ
  | Dim.toxic => env.tox
  | Dim.severeToxic => env.sev
  | Dim.obscene => env.obs
  | Dim.insult => env.ins
  | Dim.threat => env.thr
  | Dim.identityHate => env.ide

/-- The classifier global used for a dimension. -/
def modelOf (env : Env φ) : Dim → Clf φ
  | Dim.toxic => env.tox_model
  | Dim.severeToxic => env.sev_model
  | Dim.obscene => env.obs_model
  | Dim.insult => env.ins_model
  | Dim.threat => env.thr_model
  | Dim.identityHate => env.ide_model

/-- Python `str.strip()`: drop leading and trailing whitespace characters. -/
def pyStrip (s : String) : String :=
  String.mk (((s.data.dropWhile Char.isWhitespace).reverse.dropWhile
    Char.isWhitespace).reverse)

/-- Evaluate `v.transform(data)` where `v` is a vectorizer global: on a `None`
global this raises `AttributeError` without invoking any model; on a loaded
vectorizer it records the `transform` invocation and returns its outcome. -/
def callTransform (v : Vect φ) (d : Dim) (data : String) :
    Except String φ × List Call :=
  match v with
  | none => (Except.error "AttributeError: NoneType has no attribute transform", [])
  | some f => (f data, [Call.transform d])

/-- Evaluate `m.predict_proba(vect)` where `m` is a classifier global,
analogously to `callTransform`. -/
def callPredictProba (m : Clf φ) (d : Dim) (v : φ) :
    Except String (List (ℚ × ℚ)) × List Call :=
  match m with
  | none => (Except.error "AttributeError: NoneType has no attribute predict_proba", [])
  | some g => (g v, [Call.predictProba d])

/-- Sequencing of two traced fallible steps: an exception in the first step
propagates (the second step never runs); otherwise both traces accumulate.
This is the control flow of consecutive statements inside the `try` block. -/
def seqT (x : Except String α × List Call)
    (f : α → Except String β × List Call) : Except String β × List Call :=
  match x with
  | (Except.error e, t) => (Except.error e, t)
  | (Except.ok a, t) => ((f a).1, t ++ (f a).2)

/-- One `vect = <v>.transform(data); pred = <m>.predict_proba(vect)[:, 1]`
pair of lines from the handler, for dimension `d`. -/
def scoreDim (env : Env φ) (d : Dim) (data : String) :
    Except String (List ℚ) × List Call :=
  seqT (callTransform (vectOf env d) d data) fun v =>
  seqT (callPredictProba (modelOf env d) d v) fun rows =>
  (Except.ok (rows.map Prod.snd), [])

/-- Python `pred[0]`: the first element, or an `IndexError` on an empty array. -/
def idx0 (l : List ℚ) : Except String ℚ :=
  match l with
  | [] => Except.error "IndexError: index out of bounds"
  | p :: _ => Except.ok p

/-- Round-half-to-even to the nearest integer, the tie policy of Python's
built-in `round`. -/
def rhe (q : ℚ) : ℤ :=
  if q - (⌊q⌋ : ℚ) < 1/2 then ⌊q⌋
  else if q - (⌊q⌋ : ℚ) = 1/2 then (if ⌊q⌋ % 2 = 0 then ⌊q⌋ else ⌊q⌋ + 1)
  else ⌊q⌋ + 1

/-- Python `round(q, 2)`: round-half-to-even at two decimal places. -/
def round2 (q : ℚ) : ℚ := (rhe (100 * q) : ℚ) / 100

/-- The JSON success payload: the `original_text` field and the
`toxicity_results` object as an ordered key/value list. -/
structure ToxicityReport where
  original_text : String
  toxicity_results : List (String × ℚ)
deriving DecidableEq

/-- The three response shapes of the handler: the 200 JSON payload, the 400
`{"error": "Text is required"}` response, and the 500
`{"error": "Error during prediction: ..."}` response. -/
inductive ApiResult where
  | ok (report : ToxicityReport)
  | clientError (msg : String)
  | serverError (msg : String)
deriving DecidableEq

/-- Lines 114-133 of the handler: index each prediction array at 0, round to
two decimals, and build the response dictionary in its fixed key order. An
`IndexError` propagates to the surrounding `try`. -/
def assemble (text : String) (pt ps po pins pthr pid : List ℚ) :
    Except String ToxicityReport :=
  match idx0 pt with
  | Except.error e => Except.error e
  | Except.ok qt =>
    match idx0 ps with
    | Except.error e => Except.error e
    | Except.ok qs =>
      match idx0 po with
      | Except.error e => Except.error e
      | Except.ok qo =>
        match idx0 pins with
        | Except.error e => Except.error e
        | Except.ok qi =>
          match idx0 pthr with
          | Except.error e => Except.error e
          | Except.ok qth =>
            match idx0 pid with
            | Except.error e => Except.error e
            | Except.ok qid =>
              Except.ok ⟨text,
                [("Prob (Toxic)", round2 qt),
                 ("Prob (Severe Toxic)", round2 qs),
                 ("Prob (Obscene)", round2 qo),
                 ("Prob (Insult)", round2 qi),
                 ("Prob (Threat)", round2 qth),
                 ("Prob (Identity Hate)", round2 qid)]⟩

/-- The body of the `try` block (lines 94-135): the six transform/predict
pairs in source order (toxic, severe toxic, obscene, threat, insult,
identity hate), then the rounding and response assembly. -/
def getInner (env : Env φ) (data : String) :
    Except String ToxicityReport × List Call :=
  seqT (scoreDim env Dim.toxic data) fun pred_tox =>
  seqT (scoreDim env Dim.severeToxic data) fun pred_sev =>
  seqT (scoreDim env Dim.obscene data) fun pred_obs =>
  seqT (scoreDim env Dim.threat data) fun pred_thr =>
  seqT (scoreDim env Dim.insult data) fun pred_ins =>
  seqT (scoreDim env Dim.identityHate data) fun pred_ide =>
  (assemble data pred_tox pred_sev pred_obs pred_ins pred_thr pred_ide, [])

/-- The request handler `PredictToxicity.get`. `args_text` is the `text`
query parameter (`none` when absent); the handler reads it with default
`''`, strips it, returns the 400 response on an empty result, and otherwise
runs the `try` block, converting an escaped exception into the 500 response.
The second component is the trace of model invocations performed. -/
def get (env : Env φ) (args_text : Option String) : ApiResult × List Call :=
  if pyStrip (args_text.getD "") = "" then
    (ApiResult.clientError "Text is required", [])
  else
    match getInner env (pyStrip (args_text.getD "")) with
    | (Except.ok resp, t) => (ApiResult.ok resp, t)
    | (Except.error e, t) =>
      (ApiResult.serverError ("Error during prediction: " ++ e), t)

/-- Dimension `d` was scored successfully with probability `p` on `data`:
that dimension's own vectorizer transformed `data` into a vector, that same
dimension's own classifier was applied to that vector, and `p` is the
positive-class column (component 1) of the first row of its output. -/
def Scored (env : Env φ) (d : Dim) (data : String) (p : ℚ) : Prop :=
  ∃ f v g rows pr,
    vectOf env d = some f ∧ f data = Except.ok v ∧
    modelOf env d = some g ∧ g v = Except.ok rows ∧
    rows.head? = some pr ∧ p = pr.2

/-- A successful `seqT` means the first step succeeded and the continuation
succeeded on its value. -/
theorem seqT_ok_elim {x : Except String α × List Call}
    {f : α → Except String β × List Call} {b : β}
    (h : (seqT x f).1 = Except.ok b) :
    ∃ a, x.1 = Except.ok a ∧ (f a).1 = Except.ok b := by
  obtain ⟨r, t⟩ := x
  cases r with
  | error e => simp [seqT] at h
  | ok a => exact ⟨a, rfl, by simpa [seqT] using h⟩

/-- If the first step of a `seqT` raises, the whole sequence raises. -/
theorem seqT_error {x : Except String α × List Call}
    {f : α → Except String β × List Call} {e : String}
    (h : x.1 = Except.error e) : (seqT x f).1 = Except.error e := by
  obtain ⟨r, t⟩ := x
  cases r with
  | error e2 => simp_all [seqT]
  | ok a => simp at h

/-- A successful `callTransform` came from a loaded vectorizer whose
`transform` returned the vector. -/
theorem callTransform_ok_elim {v : Vect φ} {d : Dim} {data : String} {x : φ}
    (h : (callTransform v d data).1 = Except.ok x) :
    ∃ f, v = some f ∧ f data = Except.ok x := by
  cases v with
  | none => simp [callTransform] at h
  | some f => exact ⟨f, rfl, by simpa [callTransform] using h⟩

/-- A successful `callPredictProba` came from a loaded classifier whose
`predict_proba` returned the rows. -/
theorem callPredictProba_ok_elim {m : Clf φ} {d : Dim} {v : φ}
    {rows : List (ℚ × ℚ)} (h : (callPredictProba m d v).1 = Except.ok rows) :
    ∃ g, m = some g ∧ g v = Except.ok rows := by
  cases m with
  | none => simp [callPredictProba] at h
  | some g => exact ⟨g, rfl, by simpa [callPredictProba] using h⟩

/-- A successful `scoreDim` decomposes into: the dimension's vectorizer is
loaded and transformed the text, its classifier is loaded and predicted on
that vector, and the prediction array is the positive-class column. -/
theorem scoreDim_ok_elim {env : Env φ} {d : Dim} {data : String}
    {pred : List ℚ} (h : (scoreDim env d data).1 = Except.ok pred) :
    ∃ f v g rows,
      vectOf env d = some f ∧ f data = Except.ok v ∧
      modelOf env d = some g ∧ g v = Except.ok rows ∧
      pred = rows.map Prod.snd := by
  unfold scoreDim at h
  obtain ⟨v, hv, h⟩ := seqT_ok_elim h
  obtain ⟨rows, hrows, h⟩ := seqT_ok_elim h
  obtain ⟨f, hf, hfd⟩ := callTransform_ok_elim hv
  obtain ⟨g, hg, hgv⟩ := callPredictProba_ok_elim hrows
  refine ⟨f, v, g, rows, hf, hfd, hg, hgv, ?_⟩
  simpa using h.symm

/-- If a dimension's vectorizer or classifier global is `None`, that
dimension's transform/predict pair raises (an `AttributeError`). -/
theorem scoreDim_error_of_missing {env : Env φ} {d : Dim} (data : String)
    (hmiss : vectOf env d = none ∨ modelOf env d = none) :
    ∃ e, (scoreDim env d data).1 = Except.error e := by
  cases hv : vectOf env d with
  | none =>
    exact ⟨"AttributeError: NoneType has no attribute transform",
      by simp [scoreDim, seqT, callTransform, hv]⟩
  | some f =>
    rcases hmiss with h | hm
    · simp [h] at hv
    · cases hfd : f data with
      | error e =>
        exact ⟨e, by simp [scoreDim, seqT, callTransform, hv, hfd]⟩
      | ok v =>
        exact ⟨"AttributeError: NoneType has no attribute predict_proba", by
          simp [scoreDim, seqT, callTransform, callPredictProba, hv, hfd, hm]⟩

/-- A successful `idx0` is exactly a non-empty list with that head. -/
theorem idx0_ok_iff {l : List ℚ} {q : ℚ} :
    idx0 l = Except.ok q ↔ l.head? = some q := by
  cases l <;> simp [idx0]

/-- A successful `assemble` decomposes into a head element of each of the six
prediction arrays, and the report is the fixed ordered dictionary of their
roundings over the given text. -/
theorem assemble_ok_elim {text : String} {pt ps po pins pthr pid : List ℚ}
    {r : ToxicityReport}
    (h : assemble text pt ps po pins pthr pid = Except.ok r) :
    ∃ qt qs qo qi qth qid,
      pt.head? = some qt ∧ ps.head? = some qs ∧ po.head? = some qo ∧
      pins.head? = some qi ∧ pthr.head? = some qth ∧ pid.head? = some qid ∧
      r = ⟨text,
        [("Prob (Toxic)", round2 qt),
         ("Prob (Severe Toxic)", round2 qs),
         ("Prob (Obscene)", round2 qo),
         ("Prob (Insult)", round2 qi),
         ("Prob (Threat)", round2 qth),
         ("Prob (Identity Hate)", round2 qid)]⟩ := by
  unfold assemble at h
  cases h1 : idx0 pt with
  | error e => rw [h1] at h; exact absurd h (by simp)
  | ok qt =>
  rw [h1] at h
  cases h2 : idx0 ps with
  | error e => rw [h2] at h; exact absurd h (by simp)
  | ok qs =>
  rw [h2] at h
  cases h3 : idx0 po with
  | error e => rw [h3] at h; exact absurd h (by simp)
  | ok qo =>
  rw [h3] at h
  cases h4 : idx0 pins with
  | error e => rw [h4] at h; exact absurd h (by simp)
  | ok qi =>
  rw [h4] at h
  cases h5 : idx0 pthr with
  | error e => rw [h5] at h; exact absurd h (by simp)
  | ok qth =>
  rw [h5] at h
  cases h6 : idx0 pid with
  | error e => rw [h6] at h; exact absurd h (by simp)
  | ok qid =>
  rw [h6] at h
  exact ⟨qt, qs, qo, qi, qth, qid,
    idx0_ok_iff.mp h1, idx0_ok_iff.mp h2, idx0_ok_iff.mp h3,
    idx0_ok_iff.mp h4, idx0_ok_iff.mp h5, idx0_ok_iff.mp h6,
    (Except.ok.inj h).symm⟩

/-- A successful `try` block decomposes into six successful transform/predict
pairs and a successful assembly over their prediction arrays. -/
theorem getInner_ok_elim {env : Env φ} {data : String} {r : ToxicityReport}
    (h : (getInner env data).1 = Except.ok r) :
    ∃ pt ps po pth pins pid,
      (scoreDim env Dim.toxic data).1 = Except.ok pt ∧
      (scoreDim env Dim.severeToxic data).1 = Except.ok ps ∧
      (scoreDim env Dim.obscene data).1 = Except.ok po ∧
      (scoreDim env Dim.threat data).1 = Except.ok pth ∧
      (scoreDim env Dim.insult data).1 = Except.ok pins ∧
      (scoreDim env Dim.identityHate data).1 = Except.ok pid ∧
      assemble data pt ps po pins pth pid = Except.ok r := by
  unfold getInner at h
  obtain ⟨pt, h1, h⟩ := seqT_ok_elim h
  obtain ⟨ps, h2, h⟩ := seqT_ok_elim h
  obtain ⟨po, h3, h⟩ := seqT_ok_elim h
  obtain ⟨pth, h4, h⟩ := seqT_ok_elim h
  obtain ⟨pins, h5, h⟩ := seqT_ok_elim h
  obtain ⟨pid, h6, h⟩ := seqT_ok_elim h
  exact ⟨pt, ps, po, pth, pins, pid, h1, h2, h3, h4, h5, h6, h⟩

/-- If any one of the six transform/predict pairs raises, the whole `try`
block raises. -/
theorem getInner_error_of_scoreDim_error {env : Env φ} {data : String}
    (hfail : ∃ d e, (scoreDim env d data).1 = Except.error e) :
    ∃ e, (getInner env data).1 = Except.error e := by
  cases hg : (getInner env data).1 with
  | error e => exact ⟨e, rfl⟩
  | ok r =>
    exfalso
    obtain ⟨pt, ps, po, pth, pins, pid, h1, h2, h3, h4, h5, h6, -⟩ :=
      getInner_ok_elim hg
    obtain ⟨d, e, hd⟩ := hfail
    cases d <;> simp_all

/-- On a non-empty stripped text, an exception escaping the `try` block
becomes the 500 response with the wrapped message. -/
theorem get_of_inner_error {env : Env φ} {args : Option String} {e : String}
    (hne : pyStrip (args.getD "") ≠ "")
    (hg : (getInner env (pyStrip (args.getD ""))).1 = Except.error e) :
    (get env args).1 =
      ApiResult.serverError ("Error during prediction: " ++ e) := by
  unfold get
  rw [if_neg hne]
  cases hgi : getInner env (pyStrip (args.getD "")) with
  | mk res t =>
    rw [hgi] at hg
    cases res with
    | error e2 => simp_all
    | ok r => simp at hg

/-- A 200 response means the stripped text was non-empty and the `try` block
returned that report. -/
theorem get_ok_elim {env : Env φ} {args : Option String} {r : ToxicityReport}
    (h : (get env args).1 = ApiResult.ok r) :
    pyStrip (args.getD "") ≠ "" ∧
    (getInner env (pyStrip (args.getD ""))).1 = Except.ok r := by
  unfold get at h
  by_cases hne : pyStrip (args.getD "") = ""
  · rw [if_pos hne] at h
    simp at h
  · rw [if_neg hne] at h
    refine ⟨hne, ?_⟩
    cases hgi : getInner env (pyStrip (args.getD "")) with
    | mk res t =>
      rw [hgi] at h
      cases res with
      | error e => simp at h
      | ok r2 => simpa using h

/-- Master decomposition of a 200 response: the stripped text is non-empty,
every dimension was scored through its own vectorizer/classifier pair on the
stripped text, and the report is the fixed ordered dictionary of the rounded
positive-class probabilities over the stripped text. -/
theorem get_ok_master {env : Env φ} {args : Option String} {r : ToxicityReport}
    (h : (get env args).1 = ApiResult.ok r) :
    pyStrip (args.getD "") ≠ "" ∧
    ∃ ptox psev pobs pins pthr pide : ℚ,
      Scored env Dim.toxic (pyStrip (args.getD "")) ptox ∧
      Scored env Dim.severeToxic (pyStrip (args.getD "")) psev ∧
      Scored env Dim.obscene (pyStrip (args.getD "")) pobs ∧
      Scored env Dim.insult (pyStrip (args.getD "")) pins ∧
      Scored env Dim.threat (pyStrip (args.getD "")) pthr ∧
      Scored env Dim.identityHate (pyStrip (args.getD "")) pide ∧
      r = ⟨pyStrip (args.getD ""),
        [("Prob (Toxic)", round2 ptox),
         ("Prob (Severe Toxic)", round2 psev),
         ("Prob (Obscene)", round2 pobs),
         ("Prob (Insult)", round2 pins),
         ("Prob (Threat)", round2 pthr),
         ("Prob (Identity Hate)", round2 pide)]⟩ := by
  obtain ⟨hne, hg⟩ := get_ok_elim h
  obtain ⟨pt, ps, po, pth, pins, pid, h1, h2, h3, h4, h5, h6, ha⟩ :=
    getInner_ok_elim hg
  obtain ⟨qt, qs, qo, qi, qth, qid, e1, e2, e3, e4, e5, e6, hr⟩ :=
    assemble_ok_elim ha
  refine ⟨hne, qt, qs, qo, qi, qth, qid, ?_, ?_, ?_, ?_, ?_, ?_, hr⟩
  all_goals
    first
    | (obtain ⟨f, v, g, rows, hf, hfd, hgm, hgv, hpred⟩ := scoreDim_ok_elim h1
       subst hpred
       rw [List.head?_map] at e1
       obtain ⟨pr, hpr, hq⟩ := Option.map_eq_some'.mp e1
       exact ⟨f, v, g, rows, pr, hf, hfd, hgm, hgv, hpr, hq.symm⟩)
    | (obtain ⟨f, v, g, rows, hf, hfd, hgm, hgv, hpred⟩ := scoreDim_ok_elim h2
       subst hpred
       rw [List.head?_map] at e2
       obtain ⟨pr, hpr, hq⟩ := Option.map_eq_some'.mp e2
       exact ⟨f, v, g, rows, pr, hf, hfd, hgm, hgv, hpr, hq.symm⟩)
    | (obtain ⟨f, v, g, rows, hf, hfd, hgm, hgv, hpred⟩ := scoreDim_ok_elim h3
       subst hpred
       rw [List.head?_map] at e3
       obtain ⟨pr, hpr, hq⟩ := Option.map_eq_some'.mp e3
       exact ⟨f, v, g, rows, pr, hf, hfd, hgm, hgv, hpr, hq.symm⟩)
    | (obtain ⟨f, v, g, rows, hf, hfd, hgm, hgv, hpred⟩ := scoreDim_ok_elim h5
       subst hpred
       rw [List.head?_map] at e4
       obtain ⟨pr, hpr, hq⟩ := Option.map_eq_some'.mp e4
       exact ⟨f, v, g, rows, pr, hf, hfd, hgm, hgv, hpr, hq.symm⟩)
    | (obtain ⟨f, v, g, rows, hf, hfd, hgm, hgv, hpred⟩ := scoreDim_ok_elim h4
       subst hpred
       rw [List.head?_map] at e5
       obtain ⟨pr, hpr, hq⟩ := Option.map_eq_some'.mp e5
       exact ⟨f, v, g, rows, pr, hf, hfd, hgm, hgv, hpr, hq.symm⟩)
    | (obtain ⟨f, v, g, rows, hf, hfd, hgm, hgv, hpred⟩ := scoreDim_ok_elim h6
       subst hpred
       rw [List.head?_map] at e6
       obtain ⟨pr, hpr, hq⟩ := Option.map_eq_some'.mp e6
       exact ⟨f, v, g, rows, pr, hf, hfd, hgm, hgv, hpr, hq.symm⟩)

/-- Round-half-to-even of a nonnegative number is nonnegative. -/
theorem rhe_nonneg {q : ℚ} (h : 0 ≤ q) : 0 ≤ rhe q := by
  have h0 : (0 : ℤ) ≤ ⌊q⌋ := Int.floor_nonneg.mpr h
  unfold rhe
  split
  · exact h0
  · split
    · split
      · exact h0
      · omega
    · omega

/-- Round-half-to-even of a number at most 100 is at most 100. -/
theorem rhe_le_hundred {q : ℚ} (h : q ≤ 100) : rhe q ≤ 100 := by
  have hfl : ⌊q⌋ ≤ 100 := by simpa using Int.floor_mono h
  unfold rhe
  split
  · exact hfl
  · rename_i hlt
    have hge : (1 : ℚ)/2 ≤ q - (⌊q⌋ : ℚ) := le_of_not_lt hlt
    have hcast : (⌊q⌋ : ℚ) < 100 := by linarith
    have hfl99 : ⌊q⌋ < 100 := by exact_mod_cast hcast
    split
    · split
      · exact hfl
      · omega
    · omega

/-- Rounding a probability that is at least 0 keeps it at least 0. -/
theorem round2_nonneg {p : ℚ} (h : 0 ≤ p) : 0 ≤ round2 p := by
  unfold round2
  have h1 : (0 : ℤ) ≤ rhe (100 * p) := rhe_nonneg (by linarith)
  have h2 : (0 : ℚ) ≤ (rhe (100 * p) : ℚ) := by exact_mod_cast h1
  positivity

/-- Rounding a probability that is at most 1 keeps it at most 1. -/
theorem round2_le_one {p : ℚ} (h : p ≤ 1) : round2 p ≤ 1 := by
  unfold round2
  have h1 : rhe (100 * p) ≤ 100 := rhe_le_hundred (by linarith)
  rw [div_le_one (by norm_num)]
  exact_mod_cast h1

/-- A classifier global only ever reports positive-class probabilities inside
the unit interval. -/
def ClfInUnitRange (m : Clf φ) : Prop :=
  ∀ g, m = some g → ∀ v rows, g v = Except.ok rows →
    ∀ pr ∈ rows, 0 ≤ pr.2 ∧ pr.2 ≤ 1

/-- Every loaded classifier of the environment is calibrated into [0, 1]. -/
def ClassifiersInUnitRange (env : Env φ) : Prop :=
  ∀ d, ClfInUnitRange (modelOf env d)

/-- A stub vectorizer that always succeeds (features are irrelevant). -/
def stubVect : Vect Unit := some fun _ => Except.ok ()

/-- A stub classifier that always returns one row with positive-class
probability `p`. -/
def stubClf (p : ℚ) : Clf Unit := some fun _ => Except.ok [(1 - p, p)]

/-- A stub classifier whose `predict_proba` raises. -/
def raisingClf : Clf Unit := some fun _ =>
  (Except.error "ValueError: bad vector shape" : Except String (List (ℚ × ℚ)))

/-- An environment where all twelve globals loaded and every classifier
returns probability one half. -/
def unitEnv : Env Unit :=
  ⟨stubVect, stubVect, stubVect, stubVect, stubVect, stubVect,
   stubClf (1/2), stubClf (1/2), stubClf (1/2),
   stubClf (1/2), stubClf (1/2), stubClf (1/2)⟩

/-- The stub environment of the spec's worked rounding example. -/
def exampleEnv : Env Unit :=
  ⟨stubVect, stubVect, stubVect, stubVect, stubVect, stubVect,
   stubClf (873/1000), stubClf (12/1000), stubClf (501/1000),
   stubClf (499/1000), stubClf (4/1000), stubClf (200/1000)⟩

/-- An environment where everything loaded except the toxic-dimension
classifier (`tox_model` is `None`), while the toxic vectorizer did load. -/
def halfLoadedEnv : Env Unit :=
  ⟨stubVect, stubVect, stubVect, stubVect, stubVect, stubVect,
   none, stubClf (1/2), stubClf (1/2),
   stubClf (1/2), stubClf (1/2), stubClf (1/2)⟩

/-- An environment where all twelve globals loaded but the threat
classifier raises during prediction. -/
def failingEnv : Env Unit :=
  ⟨stubVect, stubVect, stubVect, stubVect, stubVect, stubVect,
   stubClf (1/2), stubClf (1/2), stubClf (1/2),
   stubClf (1/2), raisingClf, stubClf (1/2)⟩

/-- The report `unitEnv` produces on the text `hello`. -/
def unitReport : ToxicityReport :=
  ⟨"hello",
    [("Prob (Toxic)", round2 (1/2)),
     ("Prob (Severe Toxic)", round2 (1/2)),
     ("Prob (Obscene)", round2 (1/2)),
     ("Prob (Insult)", round2 (1/2)),
     ("Prob (Threat)", round2 (1/2)),
     ("Prob (Identity Hate)", round2 (1/2))]⟩

/-- The stub classifier with a fixed in-range probability is calibrated. -/
theorem stubClf_inUnitRange {p : ℚ} (h0 : 0 ≤ p) (h1 : p ≤ 1) :
    ClfInUnitRange (stubClf p) := by
  intro g hg v rows hrows pr hpr
  have hgeq : g = fun _ => Except.ok [(1 - p, p)] :=
    (Option.some.inj hg).symm
  subst hgeq
  have hreq : rows = [(1 - p, p)] := by simpa using hrows.symm
  subst hreq
  have : pr = (1 - p, p) := by simpa using hpr
  subst this
  exact ⟨h0, h1⟩

/-- All classifiers of `unitEnv` are calibrated. -/
theorem unitEnv_calibrated : ClassifiersInUnitRange unitEnv := by
  intro d
  cases d <;> exact stubClf_inUnitRange (by norm_num) (by norm_num)

/-- Shared error-path fact: on a non-empty stripped text, if any dimension's
transform/predict pair raises, the handler returns the 500 response and in
particular no report. -/
theorem get_serverError_of_scoreDim_error {env : Env φ} {raw : String}
    (hne : pyStrip raw ≠ "")
    (hfail : ∃ d e, (scoreDim env d (pyStrip raw)).1 = Except.error e) :
    (∃ msg, (get env (some raw)).1 = ApiResult.serverError msg) ∧
    ∀ rep : ToxicityReport, (get env (some raw)).1 ≠ ApiResult.ok rep := by
  obtain ⟨e, hg⟩ := getInner_error_of_scoreDim_error hfail
  have hne2 : pyStrip ((some raw).getD "") ≠ "" := hne
  have hsrv := get_of_inner_error hne2 hg
  refine ⟨⟨"Error during prediction: " ++ e, hsrv⟩, ?_⟩
  intro rep hok
  rw [hsrv] at hok
  exact absurd hok (by simp)

/-- Claim C1: for every non-empty input text, if the scoring of any one of
the six dimensions fails (extractor or classifier raises), the whole call
returns a single server-error result and none of the successfully computed
probabilities appear in the output (no report is returned at all). -/
theorem C1_all_or_nothing (φ : Type) (env : Env φ) (raw : String)
    (hne : pyStrip raw ≠ "")
    (hfail : ∃ d e, (scoreDim env d (pyStrip raw)).1 = Except.error e) :
    (∃ msg, (get env (some raw)).1 = ApiResult.serverError msg) ∧
    ∀ rep : ToxicityReport, (get env (some raw)).1 ≠ ApiResult.ok rep :=
  get_serverError_of_scoreDim_error hne hfail

/-- Witness for C1: with all globals loaded but the threat classifier
raising, the call on `abc` is a single server error with no report. -/
theorem C1_all_or_nothing_witness :
    (∃ msg, (get failingEnv (some "abc")).1 = ApiResult.serverError msg) ∧
    ∀ rep : ToxicityReport, (get failingEnv (some "abc")).1 ≠ ApiResult.ok rep :=
  C1_all_or_nothing Unit failingEnv "abc" (by decide)
    ⟨Dim.threat, "ValueError: bad vector shape", rfl⟩

/-- Claim C2: for every input string that is empty after stripping
surrounding whitespace, the handler returns the client-error response
`Text is required`, with an empty invocation trace — no vectorizer
transform and no classifier prediction is invoked. -/
theorem C2_empty_short_circuit (φ : Type) (env : Env φ) (raw : String)
    (h : pyStrip raw = "") :
    get env (some raw) = (ApiResult.clientError "Text is required", []) := by
  simp [get, h]

/-- Witness for C2: the all-whitespace input on a fully loaded environment. -/
theorem C2_empty_short_circuit_witness :
    get unitEnv (some "   ") = (ApiResult.clientError "Text is required", []) :=
  C2_empty_short_circuit Unit unitEnv "   " (by decide)

/-- Claim C3: probabilities are rounded to two decimal places by the single
fixed round-half-to-even policy of Python's `round`; with stub classifier
outputs 0.873, 0.012, 0.501, 0.499, 0.004, 0.200 for Toxic, SevereToxic,
Obscene, Insult, Threat, IdentityHate, the report contains 0.87, 0.01, 0.50,
0.50, 0.00, 0.20 in the fixed dimension order. -/
theorem C3_rounding_worked_example :
    (get exampleEnv (some "sample")).1 = ApiResult.ok
      ⟨"sample",
        [("Prob (Toxic)", 87/100),
         ("Prob (Severe Toxic)", 1/100),
         ("Prob (Obscene)", 50/100),
         ("Prob (Insult)", 50/100),
         ("Prob (Threat)", 0),
         ("Prob (Identity Hate)", 20/100)]⟩ := by
  have hstep : (get exampleEnv (some "sample")).1 = ApiResult.ok
      ⟨"sample",
        [("Prob (Toxic)", round2 (873/1000)),
         ("Prob (Severe Toxic)", round2 (12/1000)),
         ("Prob (Obscene)", round2 (501/1000)),
         ("Prob (Insult)", round2 (499/1000)),
         ("Prob (Threat)", round2 (4/1000)),
         ("Prob (Identity Hate)", round2 (200/1000))]⟩ := rfl
  rw [hstep]
  norm_num [round2, rhe]

/-- Claim C4 as stated is refuted at this input: with the toxic vectorizer
loaded but the toxic classifier failed to load, the toxic extractor DOES run
(its `transform` invocation is in the trace) even though only one of the
(extractor, classifier) pair is present, and the failure is the generic 500
`Error during prediction` response, not a distinct unavailable error kind. -/
theorem C4_counterexample :
    vectOf halfLoadedEnv Dim.toxic ≠ none ∧
    modelOf halfLoadedEnv Dim.toxic = none ∧
    Call.transform Dim.toxic ∈ (get halfLoadedEnv (some "abc")).2 ∧
    (get halfLoadedEnv (some "abc")).1 = ApiResult.serverError
      ("Error during prediction: " ++
        "AttributeError: NoneType has no attribute predict_proba") := by
  refine ⟨?_, rfl, ?_, rfl⟩
  · simp [vectOf, halfLoadedEnv, stubVect]
  · decide

/-- Claim C4, amended: if any dimension's vectorizer or classifier global
failed to load, every call with non-empty stripped text fails with the
generic server error and never returns a report (deterministically, since
the handler is a pure function of the environment); but the stated
invariant that an extractor never runs with its paired classifier missing
does not hold. -/
theorem C4_unavailable_fails_every_call (φ : Type) (env : Env φ) (raw : String)
    (hne : pyStrip raw ≠ "")
    (hmiss : ∃ d, vectOf env d = none ∨ modelOf env d = none) :
    (∃ msg, (get env (some raw)).1 = ApiResult.serverError msg) ∧
    ∀ rep : ToxicityReport, (get env (some raw)).1 ≠ ApiResult.ok rep := by
  obtain ⟨d, hd⟩ := hmiss
  obtain ⟨e, he⟩ := scoreDim_error_of_missing (pyStrip raw) hd
  exact get_serverError_of_scoreDim_error hne ⟨d, e, he⟩

/-- Witness for the amended C4: the environment whose toxic classifier did
not load fails the call on `xyz` with a server error and no report. -/
theorem C4_unavailable_fails_every_call_witness :
    (∃ msg, (get halfLoadedEnv (some "xyz")).1 = ApiResult.serverError msg) ∧
    ∀ rep : ToxicityReport, (get halfLoadedEnv (some "xyz")).1 ≠ ApiResult.ok rep :=
  C4_unavailable_fails_every_call Unit halfLoadedEnv "xyz" (by decide)
    ⟨Dim.toxic, Or.inr rfl⟩

/-- Claim C5: every successful call produces a report with an
`original_text` field and a `toxicity_results` mapping whose keys are
exactly the six labels in the fixed display order Toxic, Severe Toxic,
Obscene, Insult, Threat, Identity Hate. -/
theorem C5_report_shape (φ : Type) (env : Env φ) (args : Option String)
    (r : ToxicityReport) (h : (get env args).1 = ApiResult.ok r) :
    r.toxicity_results.map Prod.fst =
      ["Prob (Toxic)", "Prob (Severe Toxic)", "Prob (Obscene)",
       "Prob (Insult)", "Prob (Threat)", "Prob (Identity Hate)"] := by
  obtain ⟨-, pt, ps, po, pi2, pth, pid, -, -, -, -, -, -, hr⟩ := get_ok_master h
  subst hr
  rfl

/-- Witness for C5: the key list of the concrete report of `unitEnv`. -/
theorem C5_report_shape_witness :
    unitReport.toxicity_results.map Prod.fst =
      ["Prob (Toxic)", "Prob (Severe Toxic)", "Prob (Obscene)",
       "Prob (Insult)", "Prob (Threat)", "Prob (Identity Hate)"] :=
  C5_report_shape Unit unitEnv (some "hello") unitReport rfl

/-- Claim C6: the handler is deterministic — two calls with identical query
text against the same loaded models produce identical results, including
identical rounded probabilities and traces (the globals are immutable and
classifiers are pure functions in the model). -/
theorem C6_deterministic (φ : Type) (env : Env φ) (t1 t2 : Option String)
    (h : t1 = t2) : get env t1 = get env t2 := by
  rw [h]

/-- Witness for C6: two identical calls on `unitEnv` coincide. -/
theorem C6_deterministic_witness :
    get unitEnv (some "hello") = get unitEnv (some "hello") :=
  C6_deterministic Unit unitEnv (some "hello") (some "hello") rfl

/-- Claim C7: when every loaded classifier reports probabilities in [0, 1],
a successful call returns exactly six probabilities, each within [0, 1] and
each an integer multiple of 1/100 (two decimal places). -/
theorem C7_probability_range (φ : Type) (env : Env φ) (raw : String)
    (r : ToxicityReport) (hcal : ClassifiersInUnitRange env)
    (h : (get env (some raw)).1 = ApiResult.ok r) :
    r.toxicity_results.length = 6 ∧
    ∀ kv ∈ r.toxicity_results,
      (0 ≤ kv.2 ∧ kv.2 ≤ 1) ∧ ∃ n : ℤ, kv.2 = (n : ℚ) / 100 := by
  obtain ⟨-, pt, ps, po, pi2, pth, pid, s1, s2, s3, s4, s5, s6, hr⟩ :=
    get_ok_master h
  subst hr
  refine ⟨rfl, ?_⟩
  have key : ∀ (d : Dim) (p : ℚ), Scored env d (pyStrip ((some raw).getD "")) p →
      (0 ≤ round2 p ∧ round2 p ≤ 1) ∧ ∃ n : ℤ, round2 p = (n : ℚ) / 100 := by
    intro d p hs
    obtain ⟨f, v, g, rows, pr, hf, hfd, hg, hgv, hpr, hp⟩ := hs
    have hmem : pr ∈ rows := List.mem_of_mem_head? hpr
    have hrange := hcal d g hg v rows hgv pr hmem
    subst hp
    exact ⟨⟨round2_nonneg hrange.1, round2_le_one hrange.2⟩,
      rhe (100 * pr.2), rfl⟩
  intro kv hkv
  simp only [List.mem_cons, List.not_mem_nil, or_false] at hkv
  rcases hkv with rfl | rfl | rfl | rfl | rfl | rfl
  · exact key _ _ s1
  · exact key _ _ s2
  · exact key _ _ s3
  · exact key _ _ s4
  · exact key _ _ s5
  · exact key _ _ s6

/-- Witness for C7: the concrete report of `unitEnv` on `hello`. -/
theorem C7_probability_range_witness :
    unitReport.toxicity_results.length = 6 ∧
    ∀ kv ∈ unitReport.toxicity_results,
      (0 ≤ kv.2 ∧ kv.2 ≤ 1) ∧ ∃ n : ℤ, kv.2 = (n : ℚ) / 100 :=
  C7_probability_range Unit unitEnv "hello" unitReport unitEnv_calibrated rfl

/-- Claim C8: on every successful call, the report's `original_text` equals
the input text stripped of surrounding whitespace, and the very same
once-stripped text is what every dimension's scorer received. -/
theorem C8_original_text (φ : Type) (env : Env φ) (raw : String)
    (r : ToxicityReport) (h : (get env (some raw)).1 = ApiResult.ok r) :
    r.original_text = pyStrip raw ∧
    ∀ d : Dim, ∃ p, Scored env d (pyStrip raw) p := by
  obtain ⟨-, pt, ps, po, pi2, pth, pid, s1, s2, s3, s4, s5, s6, hr⟩ :=
    get_ok_master h
  subst hr
  refine ⟨rfl, ?_⟩
  intro d
  cases d
  · exact ⟨pt, s1⟩
  · exact ⟨ps, s2⟩
  · exact ⟨po, s3⟩
  · exact ⟨pi2, s4⟩
  · exact ⟨pth, s5⟩
  · exact ⟨pid, s6⟩

/-- Witness for C8: on input with surrounding spaces the report carries the
stripped text and every dimension was scored on it. -/
theorem C8_original_text_witness :
    unitReport.original_text = pyStrip "  hello  " ∧
    ∀ d : Dim, ∃ p, Scored unitEnv d (pyStrip "  hello  ") p :=
  C8_original_text Unit unitEnv "  hello  " unitReport rfl

/-- Claim C9: a request with no `text` parameter is treated identically to a
request whose `text` is the empty string — both take the client-error branch
`Text is required` with an empty invocation trace, touching no model. -/
theorem C9_missing_equals_empty (φ : Type) (env : Env φ) :
    get env none = get env (some "") ∧
    get env none = (ApiResult.clientError "Text is required", []) :=
  ⟨rfl, rfl⟩

/-- Claim C10: on a successful call, each dimension's classifier
`predict_proba` was applied exactly to the vector produced by that same
dimension's vectorizer `transform` of the stripped text, and each reported
probability is the rounding of the positive-class column (index 1) of the
resulting first row — as witnessed by `Scored` per dimension. -/
theorem C10_pairing (φ : Type) (env : Env φ) (raw : String)
    (r : ToxicityReport) (h : (get env (some raw)).1 = ApiResult.ok r) :
    ∃ ptox psev pobs pins pthr pide : ℚ,
      Scored env Dim.toxic (pyStrip raw) ptox ∧
      Scored env Dim.severeToxic (pyStrip raw) psev ∧
      Scored env Dim.obscene (pyStrip raw) pobs ∧
      Scored env Dim.insult (pyStrip raw) pins ∧
      Scored env Dim.threat (pyStrip raw) pthr ∧
      Scored env Dim.identityHate (pyStrip raw) pide ∧
      r.toxicity_results =
        [("Prob (Toxic)", round2 ptox),
         ("Prob (Severe Toxic)", round2 psev),
         ("Prob (Obscene)", round2 pobs),
         ("Prob (Insult)", round2 pins),
         ("Prob (Threat)", round2 pthr),
         ("Prob (Identity Hate)", round2 pide)] := by
  obtain ⟨-, pt, ps, po, pi2, pth, pid, s1, s2, s3, s4, s5, s6, hr⟩ :=
    get_ok_master h
  exact ⟨pt, ps, po, pi2, pth, pid, s1, s2, s3, s4, s5, s6, by rw [hr]⟩

/-- Witness for C10: the pairing on the concrete `unitEnv` run. -/
theorem C10_pairing_witness :
    ∃ ptox psev pobs pins pthr pide : ℚ,
      Scored unitEnv Dim.toxic (pyStrip "hello") ptox ∧
      Scored unitEnv Dim.severeToxic (pyStrip "hello") psev ∧
      Scored unitEnv Dim.obscene (pyStrip "hello") pobs ∧
      Scored unitEnv Dim.insult (pyStrip "hello") pins ∧
      Scored unitEnv Dim.threat (pyStrip "hello") pthr ∧
      Scored unitEnv Dim.identityHate (pyStrip "hello") pide ∧
      unitReport.toxicity_results =
        [("Prob (Toxic)", round2 ptox),
         ("Prob (Severe Toxic)", round2 psev),
         ("Prob (Obscene)", round2 pobs),
         ("Prob (Insult)", round2 pins),
         ("Prob (Threat)", round2 pthr),
         ("Prob (Identity Hate)", round2 pide)] :=
  C10_pairing Unit unitEnv "hello" unitReport rfl

end ToxicityAnalysis
